import Mathlib

/-!
Verification of the `detect-image-attributes` text-extraction pipeline.

The embedding models `src/lambda/text-extractor/index.js` (the `handler`
Lambda function).  JavaScript strings are modelled as `List Char` so that
all operations (`toLowerCase`, `includes`, `join`, `split`) compute in the
kernel.  External collaborators (S3 tagging, Rekognition, DynamoDB, SQS)
are modelled by an oracle (`S3World`) describing the data they would
return and a fault table (`Faults`) saying which calls reject; the handler
is a pure function from message, oracle and fault table to an outcome and
the ordered trace of external calls it issued.
-/

namespace DetectImageAttributes

/-- A JavaScript string, modelled as its list of characters. -/
abbrev JStr := List Char

/-- JavaScript `String.prototype.toLowerCase`, character by character. -/
def jsToLower (s : JStr) : JStr := s.map Char.toLower

/-- JavaScript `s.includes(sub)`: `sub` occurs contiguously inside `s`. -/
def jsIncludes : JStr → JStr → Bool
  | [], sub => sub.isEmpty
  | c :: rest, sub => sub.isPrefixOf (c :: rest) || jsIncludes rest sub

/-- Rendering of a possibly-undefined value inside a JS template literal:
`undefined` renders as the text "undefined". -/
def jsShow : Option JStr → JStr
  | none => "undefined".toList
  | some s => s

/-- One S3 object tag, a (Key, Value) pair of strings. -/
structure Tag where
  key : JStr
  value : JStr
deriving DecidableEq

/-- The idempotency marker name used by the handler
(`processedByRekognitionTextDetectionTag` in the source). -/
def processedTagKey : JStr := "rekognition_text_detection".toList

/-- One Rekognition text detection: a granularity tag ("LINE" or "WORD"),
the detected text, and a confidence score (never read by the handler,
which asks Rekognition itself to filter at MinConfidence 90). -/
structure TextDetection where
  type : JStr
  detectedText : JStr
  confidence : Nat
deriving DecidableEq

/-- The flattened text: texts of the LINE detections, in response order,
joined with " | " (the `detectedText` constant in the source). -/
def detectedText (ds : List TextDetection) : JStr :=
  List.intercalate (" | ".toList)
    ((ds.filter (fun d => d.type == "LINE".toList)).map (fun d => d.detectedText))

/-- The contains-word flag: some WORD detection's text contains the target
word as a substring, both sides lower-cased (the `wordDetected` constant
in the source). -/
def wordDetected (ds : List TextDetection) (wordToDetect : JStr) : Bool :=
  (ds.filter (fun d => d.type == "WORD".toList)).any
    (fun d => jsIncludes (jsToLower d.detectedText) (jsToLower wordToDetect))

/-- The check for the marker `rekognition_text_detection = "true"`
(the `hasRekognitionTextDetectionTag` constant in the source). -/
def hasRekognitionTextDetectionTag (existingTags : List Tag) : Bool :=
  existingTags.any (fun t => t.key == processedTagKey && t.value == "true".toList)

/-- The tag-update step of the handler (source lines 112-160): if a tag
`rekognition_text_detection = "false"` exists, rewrite every tag with that
key to value "true", keeping the rest; otherwise, below the 10-tag cap,
append `rekognition_text_detection = "true"`; at the cap, skip the write
(`none`) with only a log line. -/
def setProcessed (existingTags : List Tag) : Option (List Tag) :=
  if existingTags.any (fun t => t.key == processedTagKey && t.value == "false".toList) then
    some (existingTags.map (fun t =>
      if t.key == processedTagKey then { key := t.key, value := "true".toList } else t))
  else if existingTags.length < 10 then
    some (existingTags ++ [{ key := processedTagKey, value := "true".toList }])
  else
    none

/-- Outcome of `JSON.parse(message.body)` followed by the destructuring
`const { bucket, key } = s3Object`:
* `malformed`: `JSON.parse` throws (body is not valid JSON);
* `jsonNull`: the body parses to JSON null, so destructuring throws;
* `object b k`: any other JSON value; `bucket` / `key` are the string
  fields of that name, `none` when absent (JS `undefined`). -/
inductive MessageBody where
  | malformed
  | jsonNull
  | object (bucket key : Option JStr)
deriving DecidableEq

/-- The single SQS record handed to the handler (`event.Records[0]`). -/
structure SQSMessage where
  body : MessageBody
  receiptHandle : JStr
  eventSourceARN : JStr
  awsRegion : JStr
deriving DecidableEq

/-- Lambda environment variables read by the handler. -/
structure Env where
  wordToDetect : JStr
  dynamodbTable : JStr
deriving DecidableEq

/-- Oracle for the external reads: the S3 object's tag set as returned by
GetObjectTagging (an absent TagSet is already collapsed to `[]` by the
source's `taggingResponse.TagSet || []`), and the Rekognition
TextDetections for the object. -/
structure S3World where
  tagSet : List Tag
  textDetections : List TextDetection
deriving DecidableEq

/-- Fault injection for the five external calls: `some e` means the call
rejects with error `e`, which the handler's catch block re-throws
unchanged. -/
structure Faults where
  getTagging : Option JStr
  detectText : Option JStr
  putItem : Option JStr
  putTagging : Option JStr
  deleteMessage : Option JStr
deriving DecidableEq

/-- The fault table under which every external call succeeds. -/
def noFaults : Faults :=
  { getTagging := none, detectText := none, putItem := none,
    putTagging := none, deleteMessage := none }

/-- One issued external call, with the arguments the source passes. -/
inductive Eff where
  | getObjectTagging (bucket key : Option JStr)
  | detectText (bucket key : Option JStr)
  | putItem (table s3Uri flattened : JStr) (containsWord : Bool)
  | putObjectTagging (bucket key : Option JStr) (tagSet : List Tag)
  | deleteMessage (queueUrl receiptHandle : JStr)
deriving DecidableEq

/-- Result of one handler invocation:
* `skipped`: returned 200 "Object already processed";
* `completed`: returned 200 "Processing completed successfully";
* `thrown e`: an exception `e` propagated out of the handler. -/
inductive Outcome where
  | skipped
  | completed
  | thrown (e : JStr)
deriving DecidableEq

/-- The deployed SQS event source mapping (stack file: `SqsEventSource`
with batch size 1 and no partial-batch-failure reporting) deletes the
message exactly when the handler returns without throwing, so a
non-throwing outcome is an acknowledged message. -/
def acknowledged : Outcome → Bool
  | .thrown _ => false
  | _ => true

/-- The JSON parse error thrown by `JSON.parse` on a malformed body. -/
def syntaxError : JStr := "SyntaxError".toList

/-- The error thrown by destructuring a null parse result. -/
def typeError : JStr := "TypeError".toList

/-- Queue URL reconstruction from the record's routing metadata
(source lines 162-167): split the event source ARN on ":", take parts 4
and 5 as account id and queue name (JS indexing past the end gives
`undefined`). -/
def queueUrlOf (eventSourceARN awsRegion : JStr) : JStr :=
  let arnParts := List.splitOn ':' eventSourceARN
  "https://sqs.".toList ++ awsRegion ++ ".amazonaws.com/".toList ++
    jsShow (arnParts.get? 4) ++ "/".toList ++ jsShow (arnParts.get? 5)

/-- The final acknowledgment step: issue DeleteMessage; a rejection
propagates, otherwise the handler returns its success response. -/
def ackStep (msg : SQSMessage) (effs : List Eff) (f : Faults) : Outcome × List Eff :=
  let delEff := Eff.deleteMessage (queueUrlOf msg.eventSourceARN msg.awsRegion) msg.receiptHandle
  match f.deleteMessage with
  | some e => (.thrown e, effs ++ [delEff])
  | none => (.completed, effs ++ [delEff])

/-- The handler (`exports.handler` in `src/lambda/text-extractor/index.js`),
as a pure function of the message, the external-world oracle and the fault
table.  Returns the outcome and the ordered trace of external calls
issued (a rejected call still appears in the trace). -/
def handler (env : Env) (msg : SQSMessage) (w : S3World) (f : Faults) :
    Outcome × List Eff :=
  match msg.body with
  | .malformed => (.thrown syntaxError, [])
  | .jsonNull => (.thrown typeError, [])
  | .object bucket key =>
    let s3Uri := "s3://".toList ++ jsShow bucket ++ "/".toList ++ jsShow key
    let tagEff := Eff.getObjectTagging bucket key
    match f.getTagging with
    | some e => (.thrown e, [tagEff])
    | none =>
      let existingTags := w.tagSet
      if hasRekognitionTextDetectionTag existingTags then
        (.skipped, [tagEff])
      else
        let detEff := Eff.detectText bucket key
        match f.detectText with
        | some e => (.thrown e, [tagEff, detEff])
        | none =>
          let putEff := Eff.putItem env.dynamodbTable s3Uri
            (detectedText w.textDetections)
            (wordDetected w.textDetections env.wordToDetect)
          match f.putItem with
          | some e => (.thrown e, [tagEff, detEff, putEff])
          | none =>
            match setProcessed existingTags with
            | some newTags =>
              let ptEff := Eff.putObjectTagging bucket key newTags
              match f.putTagging with
              | some e => (.thrown e, [tagEff, detEff, putEff, ptEff])
              | none => ackStep msg [tagEff, detEff, putEff, ptEff] f
            | none => ackStep msg [tagEff, detEff, putEff] f

/-!  ## Supporting lemmas  -/

/-- `jsIncludes s sub` is exactly contiguous-substring occurrence. -/
theorem jsIncludes_iff_infix (s sub : JStr) : jsIncludes s sub = true ↔ sub <:+: s := by
  induction s with
  | nil => simp [jsIncludes, List.isEmpty_iff, List.infix_nil]
  | cons c rest ih =>
    simp only [jsIncludes, Bool.or_eq_true, ih, List.infix_cons_iff,
      List.isPrefixOf_iff_prefix]

/-- Specification-side join: the texts in order with " | " between
consecutive elements, empty for the empty list (§4.3 of the spec). -/
def specJoin : List JStr → JStr
  | [] => []
  | [t] => t
  | t :: u :: ts => t ++ " | ".toList ++ specJoin (u :: ts)

/-- Specification-side flattening: the LINE fragments' texts, in input
order, joined by `specJoin`. -/
def flattenedSpec (ds : List TextDetection) : JStr :=
  specJoin ((ds.filter (fun d => d.type == "LINE".toList)).map (fun d => d.detectedText))

theorem intercalate_eq_specJoin (xs : List JStr) :
    List.intercalate (" | ".toList) xs = specJoin xs := by
  induction xs with
  | nil => rfl
  | cons t ts ih =>
    cases ts with
    | nil => simp [List.intercalate, specJoin]
    | cons u ts' =>
      simp only [specJoin, ← ih]
      simp [List.intercalate, List.append_assoc]

/-- A list holding two distinct elements has length at least two. -/
theorem two_le_length_of_mem_ne {α : Type} {a b : α} {l : List α}
    (ha : a ∈ l) (hb : b ∈ l) (hne : a ≠ b) : 2 ≤ l.length := by
  induction l with
  | nil => cases ha
  | cons c cs ih =>
    rcases List.mem_cons.1 ha with rfl | ha'
    · rcases List.mem_cons.1 hb with rfl | hb'
      · exact absurd rfl hne
      · have h1 := List.length_pos_of_mem hb'
        simp only [List.length_cons]
        omega
    · have h1 := List.length_pos_of_mem ha'
      simp only [List.length_cons]
      omega

/-- Shape of a full (non-short-circuited, fault-free) run: marker fetch,
detection, store write, the tag write exactly when `setProcessed` yields
one, then the explicit queue acknowledgment, ending in `completed`. -/
theorem handler_full_run
    (env : Env) (msg : SQSMessage) (w : S3World) (b k : Option JStr)
    (hbody : msg.body = .object b k)
    (hmark : hasRekognitionTextDetectionTag w.tagSet = false) :
    handler env msg w noFaults =
      (.completed,
        [Eff.getObjectTagging b k, Eff.detectText b k,
         Eff.putItem env.dynamodbTable
           ("s3://".toList ++ jsShow b ++ "/".toList ++ jsShow k)
           (detectedText w.textDetections)
           (wordDetected w.textDetections env.wordToDetect)] ++
        (match setProcessed w.tagSet with
         | some ts => [Eff.putObjectTagging b k ts]
         | none => []) ++
        [Eff.deleteMessage (queueUrlOf msg.eventSourceARN msg.awsRegion)
          msg.receiptHandle]) := by
  cases hsp : setProcessed w.tagSet <;>
    simp [handler, hbody, hmark, hsp, noFaults, ackStep]

/-!  ## Claims  -/

/-- C1: a message whose object already carries the marker
`rekognition_text_detection = "true"` short-circuits the run: the only
external call issued is the marker fetch (no detection, no store write,
no tag mutation, no explicit queue call), and the handler returns without
throwing, so the message is acknowledged by the event source mapping. -/
theorem c1_true_marker_short_circuits
    (env : Env) (msg : SQSMessage) (w : S3World) (f : Faults)
    (b k : Option JStr)
    (hbody : msg.body = .object b k)
    (hmark : hasRekognitionTextDetectionTag w.tagSet = true)
    (hget : f.getTagging = none) :
    handler env msg w f = (.skipped, [Eff.getObjectTagging b k]) ∧
    acknowledged (handler env msg w f).1 = true := by
  have h : handler env msg w f = (.skipped, [Eff.getObjectTagging b k]) := by
    simp [handler, hbody, hget, hmark]
  exact ⟨h, by rw [h]; rfl⟩

/-- Witness for C1 at a concrete marker set carrying the "true" marker. -/
theorem c1_true_marker_short_circuits_witness :
    handler { wordToDetect := [], dynamodbTable := [] }
      { body := .object none none, receiptHandle := [],
        eventSourceARN := [], awsRegion := [] }
      { tagSet := [{ key := processedTagKey, value := "true".toList }],
        textDetections := [] }
      noFaults = (.skipped, [Eff.getObjectTagging none none]) ∧
    acknowledged (handler { wordToDetect := [], dynamodbTable := [] }
      { body := .object none none, receiptHandle := [],
        eventSourceARN := [], awsRegion := [] }
      { tagSet := [{ key := processedTagKey, value := "true".toList }],
        textDetections := [] }
      noFaults).1 = true :=
  c1_true_marker_short_circuits _ _ _ _ none none rfl (by decide) rfl

/-- C4: the aggregated contains-word boolean is true iff some WORD
fragment's text contains the target word as a substring after
lower-casing both sides (so LINE fragments never influence it), and in
particular the target "FindMe" matches the fragment text
"please findme here". -/
theorem c4_contains_word_iff_word_fragment_substring :
    (∀ (ds : List TextDetection) (target : JStr),
      wordDetected ds target = true ↔
        ∃ d ∈ ds, d.type = "WORD".toList ∧
          jsToLower target <:+: jsToLower d.detectedText) ∧
    wordDetected
      [{ type := "WORD".toList, detectedText := "please findme here".toList,
         confidence := 95 }]
      ("FindMe".toList) = true := by
  constructor
  · intro ds target
    simp [wordDetected, List.any_eq_true, List.mem_filter, beq_iff_eq,
      jsIncludes_iff_infix, and_assoc]
  · decide

/-- C5: the flattened text is exactly the LINE fragments' texts, in input
order, joined with the separator " | " (spec-side `specJoin`), and a
detection result with no LINE fragment flattens to the empty string. -/
theorem c5_flattened_text_is_line_join :
    (∀ ds : List TextDetection, detectedText ds = flattenedSpec ds) ∧
    (∀ ds : List TextDetection,
      (∀ d ∈ ds, d.type ≠ "LINE".toList) → detectedText ds = []) := by
  constructor
  · intro ds
    rw [detectedText, flattenedSpec, intercalate_eq_specJoin]
  · intro ds h
    have hf : ds.filter (fun d => d.type == "LINE".toList) = [] := by
      rw [List.filter_eq_nil_iff]
      intro d hd
      simp [beq_iff_eq]
      exact h d hd
    rw [detectedText, hf]
    rfl

/-- Witness for C5: a result holding only a WORD fragment flattens to the
empty string. -/
theorem c5_flattened_text_is_line_join_witness :
    detectedText
      [{ type := "WORD".toList, detectedText := "findme".toList,
         confidence := 95 }] = [] :=
  c5_flattened_text_is_line_join.2 _ (by decide)

/-- C8: end-to-end scenario: message for bucket "b", key "posters/p1.jpg",
no existing markers, detection returning the LINE fragment "FINDME NOW"
and the WORD fragment "findme", target word "findme": the run stores the
record (identity "s3://b/posters/p1.jpg", flattened text "FINDME NOW",
contains-word true), attaches the marker (rekognition_text_detection,
"true"), issues the queue delete, and returns successfully. -/
theorem c8_end_to_end_scenario_one :
    handler
      { wordToDetect := "findme".toList,
        dynamodbTable := "s3-object-image-recognition-mapping".toList }
      { body := .object (some "b".toList) (some "posters/p1.jpg".toList),
        receiptHandle := "rh".toList,
        eventSourceARN :=
          "arn:aws:sqs:us-east-1:123456789012:detect-image-attributes".toList,
        awsRegion := "us-east-1".toList }
      { tagSet := [],
        textDetections :=
          [ { type := "LINE".toList, detectedText := "FINDME NOW".toList,
              confidence := 95 },
            { type := "WORD".toList, detectedText := "findme".toList,
              confidence := 95 } ] }
      noFaults =
    (.completed,
      [ Eff.getObjectTagging (some "b".toList) (some "posters/p1.jpg".toList),
        Eff.detectText (some "b".toList) (some "posters/p1.jpg".toList),
        Eff.putItem "s3-object-image-recognition-mapping".toList
          "s3://b/posters/p1.jpg".toList "FINDME NOW".toList true,
        Eff.putObjectTagging (some "b".toList) (some "posters/p1.jpg".toList)
          [{ key := processedTagKey, value := "true".toList }],
        Eff.deleteMessage
          "https://sqs.us-east-1.amazonaws.com/123456789012/detect-image-attributes".toList
          "rh".toList ]) ∧
    acknowledged Outcome.completed = true := by
  decide

/-- C9: the run short-circuits iff the tag set holds an entry whose key is
exactly `rekognition_text_detection` and whose value is exactly the string
"true"; any other value of that entry (such as "True" or "1") lets the
full pipeline run, with a detector invocation and a store write in the
trace. -/
theorem c9_short_circuit_iff_exact_true_value :
    (∀ tags : List Tag,
      hasRekognitionTextDetectionTag tags = true ↔
        ∃ t ∈ tags, t.key = processedTagKey ∧ t.value = "true".toList) ∧
    (∀ (env : Env) (msg : SQSMessage) (w : S3World) (b k : Option JStr),
      msg.body = .object b k →
      (¬ ∃ t ∈ w.tagSet, t.key = processedTagKey ∧ t.value = "true".toList) →
      Eff.detectText b k ∈ (handler env msg w noFaults).2 ∧
      Eff.putItem env.dynamodbTable
        ("s3://".toList ++ jsShow b ++ "/".toList ++ jsShow k)
        (detectedText w.textDetections)
        (wordDetected w.textDetections env.wordToDetect) ∈
        (handler env msg w noFaults).2) := by
  have hiff : ∀ tags : List Tag,
      hasRekognitionTextDetectionTag tags = true ↔
        ∃ t ∈ tags, t.key = processedTagKey ∧ t.value = "true".toList := by
    intro tags
    simp [hasRekognitionTextDetectionTag, List.any_eq_true, beq_iff_eq]
  refine ⟨hiff, ?_⟩
  intro env msg w b k hbody hno
  have hmark : hasRekognitionTextDetectionTag w.tagSet = false := by
    rcases h : hasRekognitionTextDetectionTag w.tagSet with _ | _
    · rfl
    · exact absurd ((hiff w.tagSet).1 h) hno
  rw [handler_full_run env msg w b k hbody hmark]
  cases setProcessed w.tagSet <;> simp

/-- Witness for C9: with the sole tag (rekognition_text_detection, "True")
— capital T — the detector is still invoked. -/
theorem c9_short_circuit_iff_exact_true_value_witness :
    Eff.detectText none none ∈
      (handler { wordToDetect := [], dynamodbTable := [] }
        { body := .object none none, receiptHandle := [],
          eventSourceARN := [], awsRegion := [] }
        { tagSet := [{ key := processedTagKey, value := "True".toList }],
          textDetections := [] }
        noFaults).2 :=
  (c9_short_circuit_iff_exact_true_value.2
    { wordToDetect := [], dynamodbTable := [] }
    { body := .object none none, receiptHandle := [],
      eventSourceARN := [], awsRegion := [] }
    { tagSet := [{ key := processedTagKey, value := "True".toList }],
      textDetections := [] }
    none none rfl (by decide)).1

/-- C2 counterexample: a well-formed JSON object body lacking both bucket
and key is not rejected by any validation step; with every external call
succeeding, the handler completes and stores a record whose identity is
the silently coerced string "s3://undefined/undefined". -/
theorem c2_counterexample_missing_identity_coerced :
    (handler { wordToDetect := "findme".toList, dynamodbTable := "T".toList }
      { body := .object none none, receiptHandle := "rh".toList,
        eventSourceARN := "arn".toList, awsRegion := "r".toList }
      { tagSet := [], textDetections := [] } noFaults).1 = .completed ∧
    Eff.putItem "T".toList "s3://undefined/undefined".toList [] false ∈
      (handler { wordToDetect := "findme".toList, dynamodbTable := "T".toList }
        { body := .object none none, receiptHandle := "rh".toList,
          eventSourceARN := "arn".toList, awsRegion := "r".toList }
        { tagSet := [], textDetections := [] } noFaults).2 := by
  decide

/-- C2 (amended): a body that is not valid JSON, or parses to JSON null,
aborts the run with a propagated exception before any external call, so
nothing is stored for it; but a JSON object body merely missing bucket or
key is not rejected: the identity is silently coerced (absent fields
render as "undefined") and the record is stored under the coerced
identity. -/
theorem c2_amended_no_validation_of_identity :
    (∀ (env : Env) (msg : SQSMessage) (w : S3World) (f : Faults),
      msg.body = .malformed →
      handler env msg w f = (.thrown syntaxError, [])) ∧
    (∀ (env : Env) (msg : SQSMessage) (w : S3World) (f : Faults),
      msg.body = .jsonNull →
      handler env msg w f = (.thrown typeError, [])) ∧
    (∀ (env : Env) (msg : SQSMessage) (w : S3World) (b k : Option JStr),
      msg.body = .object b k →
      hasRekognitionTextDetectionTag w.tagSet = false →
      Eff.putItem env.dynamodbTable
        ("s3://".toList ++ jsShow b ++ "/".toList ++ jsShow k)
        (detectedText w.textDetections)
        (wordDetected w.textDetections env.wordToDetect) ∈
        (handler env msg w noFaults).2) := by
  refine ⟨?_, ?_, ?_⟩
  · intro env msg w f h
    simp [handler, h]
  · intro env msg w f h
    simp [handler, h]
  · intro env msg w b k hbody hmark
    rw [handler_full_run env msg w b k hbody hmark]
    cases setProcessed w.tagSet <;> simp

/-- Witness for C2 (amended): a malformed body aborts with the parse
error and an empty call trace. -/
theorem c2_amended_no_validation_of_identity_witness :
    handler { wordToDetect := [], dynamodbTable := [] }
      { body := .malformed, receiptHandle := [],
        eventSourceARN := [], awsRegion := [] }
      { tagSet := [], textDetections := [] } noFaults =
      (.thrown syntaxError, []) :=
  c2_amended_no_validation_of_identity.1
    { wordToDetect := [], dynamodbTable := [] }
    { body := .malformed, receiptHandle := [],
      eventSourceARN := [], awsRegion := [] }
    { tagSet := [], textDetections := [] } noFaults rfl

/-- C7: with 10 existing tags of which none is the idempotency marker with
value "false" or "true", the tag write is skipped but the run still
detects, writes the record to the store, issues the queue delete and
returns successfully (acknowledged). -/
theorem c7_marker_cap_skip_still_acknowledges
    (env : Env) (msg : SQSMessage) (w : S3World) (b k : Option JStr)
    (hbody : msg.body = .object b k)
    (hlen : w.tagSet.length = 10)
    (hnm : ∀ t ∈ w.tagSet, t.key = processedTagKey →
      t.value ≠ "true".toList ∧ t.value ≠ "false".toList) :
    handler env msg w noFaults =
      (.completed,
        [Eff.getObjectTagging b k, Eff.detectText b k,
         Eff.putItem env.dynamodbTable
           ("s3://".toList ++ jsShow b ++ "/".toList ++ jsShow k)
           (detectedText w.textDetections)
           (wordDetected w.textDetections env.wordToDetect),
         Eff.deleteMessage (queueUrlOf msg.eventSourceARN msg.awsRegion)
           msg.receiptHandle]) ∧
    acknowledged (handler env msg w noFaults).1 = true := by
  have hmark : hasRekognitionTextDetectionTag w.tagSet = false := by
    rw [hasRekognitionTextDetectionTag, List.any_eq_false]
    intro t ht
    simp only [Bool.and_eq_true, beq_iff_eq, not_and]
    intro hk
    exact (hnm t ht hk).1
  have hfalse : w.tagSet.any
      (fun t => t.key == processedTagKey && t.value == "false".toList) = false := by
    rw [List.any_eq_false]
    intro t ht
    simp only [Bool.and_eq_true, beq_iff_eq, not_and]
    intro hk
    exact (hnm t ht hk).2
  have hsp : setProcessed w.tagSet = none := by
    unfold setProcessed
    rw [hfalse]
    simp [hlen]
  have h := handler_full_run env msg w b k hbody hmark
  rw [hsp] at h
  have h2 : handler env msg w noFaults =
      (.completed,
        [Eff.getObjectTagging b k, Eff.detectText b k,
         Eff.putItem env.dynamodbTable
           ("s3://".toList ++ jsShow b ++ "/".toList ++ jsShow k)
           (detectedText w.textDetections)
           (wordDetected w.textDetections env.wordToDetect),
         Eff.deleteMessage (queueUrlOf msg.eventSourceARN msg.awsRegion)
           msg.receiptHandle]) := by
    simpa using h
  exact ⟨h2, by rw [h2]; rfl⟩

/-- Witness for C7 at a concrete tag set of 10 unrelated entries. -/
theorem c7_marker_cap_skip_still_acknowledges_witness :
    handler { wordToDetect := [], dynamodbTable := [] }
      { body := .object none none, receiptHandle := [],
        eventSourceARN := [], awsRegion := [] }
      { tagSet :=
          [⟨"k0".toList, "v".toList⟩, ⟨"k1".toList, "v".toList⟩,
           ⟨"k2".toList, "v".toList⟩, ⟨"k3".toList, "v".toList⟩,
           ⟨"k4".toList, "v".toList⟩, ⟨"k5".toList, "v".toList⟩,
           ⟨"k6".toList, "v".toList⟩, ⟨"k7".toList, "v".toList⟩,
           ⟨"k8".toList, "v".toList⟩, ⟨"k9".toList, "v".toList⟩],
        textDetections := [] }
      noFaults =
      (.completed,
        [Eff.getObjectTagging none none, Eff.detectText none none,
         Eff.putItem [] ("s3://undefined/undefined".toList) [] false,
         Eff.deleteMessage (queueUrlOf [] []) []]) ∧
    acknowledged (handler { wordToDetect := [], dynamodbTable := [] }
      { body := .object none none, receiptHandle := [],
        eventSourceARN := [], awsRegion := [] }
      { tagSet :=
          [⟨"k0".toList, "v".toList⟩, ⟨"k1".toList, "v".toList⟩,
           ⟨"k2".toList, "v".toList⟩, ⟨"k3".toList, "v".toList⟩,
           ⟨"k4".toList, "v".toList⟩, ⟨"k5".toList, "v".toList⟩,
           ⟨"k6".toList, "v".toList⟩, ⟨"k7".toList, "v".toList⟩,
           ⟨"k8".toList, "v".toList⟩, ⟨"k9".toList, "v".toList⟩],
        textDetections := [] }
      noFaults).1 = true :=
  c7_marker_cap_skip_still_acknowledges _ _ _ none none rfl (by decide) (by decide)

/-- C6: when the tag set holds the idempotency marker with value "false",
the tag-update step writes a set of the same length in the same order in
which every entry whose key is not the marker key is unchanged and every
entry whose key is the marker key now has value "true"; moreover no write
path of `setProcessed` ever drops an entry with an unrelated key. -/
theorem c6_false_marker_rewritten_in_place :
    (∀ tags : List Tag,
      (∃ t ∈ tags, t.key = processedTagKey ∧ t.value = "false".toList) →
      ∃ ts', setProcessed tags = some ts' ∧
        ts'.length = tags.length ∧
        (∀ i t, tags.get? i = some t → t.key ≠ processedTagKey →
          ts'.get? i = some t) ∧
        (∀ i t, tags.get? i = some t → t.key = processedTagKey →
          ts'.get? i = some { key := processedTagKey, value := "true".toList })) ∧
    (∀ tags ts', setProcessed tags = some ts' →
      ∀ t ∈ tags, t.key ≠ processedTagKey → t ∈ ts') := by
  constructor
  · intro tags hex
    have hany : tags.any
        (fun t => t.key == processedTagKey && t.value == "false".toList) = true := by
      rw [List.any_eq_true]
      obtain ⟨t, ht, h1, h2⟩ := hex
      exact ⟨t, ht, by simp [h1, h2]⟩
    refine ⟨tags.map (fun t =>
        if t.key == processedTagKey
        then { key := t.key, value := "true".toList } else t),
      by rw [setProcessed, if_pos hany], by simp, ?_, ?_⟩
    · intro i t hi hk
      rw [List.get?_map, hi]
      simp [hk]
    · intro i t hi hk
      rw [List.get?_map, hi]
      simp [hk]
  · intro tags ts' hsp t ht hk
    unfold setProcessed at hsp
    split at hsp
    · cases hsp
      exact List.mem_map.2 ⟨t, ht, by rw [if_neg (by simp [hk])]⟩
    · split at hsp
      · cases hsp
        exact List.mem_append.2 (Or.inl ht)
      · cases hsp

/-- Witness for C6: a two-entry set with an unrelated tag and the marker
at "false" is rewritten in place. -/
theorem c6_false_marker_rewritten_in_place_witness :
    ∃ ts', setProcessed
        [{ key := "color".toList, value := "red".toList },
         { key := processedTagKey, value := "false".toList }] = some ts' ∧
      ts'.length =
        [({ key := "color".toList, value := "red".toList } : Tag),
         { key := processedTagKey, value := "false".toList }].length ∧
      (∀ i t,
        [({ key := "color".toList, value := "red".toList } : Tag),
         { key := processedTagKey, value := "false".toList }].get? i = some t →
        t.key ≠ processedTagKey → ts'.get? i = some t) ∧
      (∀ i t,
        [({ key := "color".toList, value := "red".toList } : Tag),
         { key := processedTagKey, value := "false".toList }].get? i = some t →
        t.key = processedTagKey →
        ts'.get? i = some { key := processedTagKey, value := "true".toList }) :=
  c6_false_marker_rewritten_in_place.1 _
    ⟨{ key := processedTagKey, value := "false".toList }, by decide, rfl, rfl⟩

/-- C10: a tag set below the 10-entry cap whose sole marker-keyed entry
has a value other than "true" and "false" gets a second
(rekognition_text_detection, "true") entry appended rather than the
existing one rewritten, so the written set holds two entries with the
marker key. -/
theorem c10_nonstandard_value_appends_duplicate
    (tags : List Tag) (v : JStr)
    (hmem : ({ key := processedTagKey, value := v } : Tag) ∈ tags)
    (hvt : v ≠ "true".toList) (hvf : v ≠ "false".toList)
    (hlen : tags.length < 10)
    (hone : tags.countP (fun t => t.key == processedTagKey) ≤ 1) :
    setProcessed tags =
      some (tags ++ [{ key := processedTagKey, value := "true".toList }]) ∧
    (tags ++ [({ key := processedTagKey, value := "true".toList } : Tag)]).countP
      (fun t => t.key == processedTagKey) = 2 := by
  have hfalse : tags.any
      (fun t => t.key == processedTagKey && t.value == "false".toList) = false := by
    rw [List.any_eq_false]
    intro t ht
    simp only [Bool.and_eq_true, beq_iff_eq, not_and]
    intro hk hval
    have hne : t ≠ { key := processedTagKey, value := v } := by
      intro he
      rw [he] at hval
      exact hvf hval
    have h2 : 2 ≤ tags.countP (fun t => t.key == processedTagKey) := by
      rw [List.countP_eq_length_filter]
      exact two_le_length_of_mem_ne
        (List.mem_filter.2 ⟨ht, by simp [hk]⟩)
        (List.mem_filter.2 ⟨hmem, by simp⟩) hne
    omega
  have hcount : tags.countP (fun t => t.key == processedTagKey) = 1 := by
    have hpos : 0 < tags.countP (fun t => t.key == processedTagKey) :=
      List.countP_pos_iff.2 ⟨_, hmem, by simp⟩
    omega
  constructor
  · unfold setProcessed
    rw [hfalse]
    simp [hlen]
  · rw [List.countP_append, hcount]
    decide

/-- Witness for C10: the one-entry set with marker value "1" becomes a
two-entry set whose entries both carry the marker key. -/
theorem c10_nonstandard_value_appends_duplicate_witness :
    setProcessed [{ key := processedTagKey, value := "1".toList }] =
      some [{ key := processedTagKey, value := "1".toList },
            { key := processedTagKey, value := "true".toList }] ∧
    ([({ key := processedTagKey, value := "1".toList } : Tag)] ++
      [({ key := processedTagKey, value := "true".toList } : Tag)]).countP
      (fun t => t.key == processedTagKey) = 2 :=
  c10_nonstandard_value_appends_duplicate
    [{ key := processedTagKey, value := "1".toList }] ("1".toList)
    (by decide) (by decide) (by decide) (by decide) (by decide)

/-- C3: a fault in the marker fetch, the detection, the store write or the
attempted tag write aborts the run with the fault value propagated
unchanged and no queue-delete call in the trace; conversely, whenever the
queue-delete call appears in the trace, the marker fetch, detection and
store write all succeeded, and so did the tag write whenever one was due. -/
theorem c3_faults_propagate_and_block_acknowledgment :
    (∀ (env : Env) (msg : SQSMessage) (w : S3World) (f : Faults)
        (b k : Option JStr) (e : JStr),
      msg.body = .object b k →
      (f.getTagging = some e ∨
       (f.getTagging = none ∧ hasRekognitionTextDetectionTag w.tagSet = false ∧
         f.detectText = some e) ∨
       (f.getTagging = none ∧ hasRekognitionTextDetectionTag w.tagSet = false ∧
         f.detectText = none ∧ f.putItem = some e) ∨
       (∃ ts, f.getTagging = none ∧
         hasRekognitionTextDetectionTag w.tagSet = false ∧
         f.detectText = none ∧ f.putItem = none ∧
         setProcessed w.tagSet = some ts ∧ f.putTagging = some e)) →
      (handler env msg w f).1 = .thrown e ∧
        ∀ url rh, Eff.deleteMessage url rh ∉ (handler env msg w f).2) ∧
    (∀ (env : Env) (msg : SQSMessage) (w : S3World) (f : Faults)
        (url rh : JStr),
      Eff.deleteMessage url rh ∈ (handler env msg w f).2 →
      f.getTagging = none ∧ f.detectText = none ∧ f.putItem = none ∧
        ∀ ts, setProcessed w.tagSet = some ts → f.putTagging = none) := by
  constructor
  · intro env msg w f b k e hbody h
    rcases h with hg | ⟨hg, hm, hd⟩ | ⟨hg, hm, hd, hp⟩ | ⟨ts, hg, hm, hd, hp, hsp, hpt⟩
    · have : handler env msg w f = (.thrown e, [Eff.getObjectTagging b k]) := by
        simp [handler, hbody, hg]
      rw [this]
      exact ⟨rfl, by intro url rh; simp⟩
    · have : handler env msg w f =
          (.thrown e, [Eff.getObjectTagging b k, Eff.detectText b k]) := by
        simp [handler, hbody, hg, hm, hd]
      rw [this]
      exact ⟨rfl, by intro url rh; simp⟩
    · have : handler env msg w f =
          (.thrown e, [Eff.getObjectTagging b k, Eff.detectText b k,
            Eff.putItem env.dynamodbTable
              ("s3://".toList ++ jsShow b ++ "/".toList ++ jsShow k)
              (detectedText w.textDetections)
              (wordDetected w.textDetections env.wordToDetect)]) := by
        simp [handler, hbody, hg, hm, hd, hp]
      rw [this]
      exact ⟨rfl, by intro url rh; simp⟩
    · have : handler env msg w f =
          (.thrown e, [Eff.getObjectTagging b k, Eff.detectText b k,
            Eff.putItem env.dynamodbTable
              ("s3://".toList ++ jsShow b ++ "/".toList ++ jsShow k)
              (detectedText w.textDetections)
              (wordDetected w.textDetections env.wordToDetect),
            Eff.putObjectTagging b k ts]) := by
        simp [handler, hbody, hg, hm, hd, hp, hsp, hpt]
      rw [this]
      exact ⟨rfl, by intro url rh; simp⟩
  · intro env msg w f url rh h
    cases hb : msg.body with
    | malformed => simp [handler, hb] at h
    | jsonNull => simp [handler, hb] at h
    | object b k =>
      cases hg : f.getTagging with
      | some e => simp [handler, hb, hg] at h
      | none =>
        by_cases hm : hasRekognitionTextDetectionTag w.tagSet
        · simp [handler, hb, hg, hm] at h
        · cases hd : f.detectText with
          | some e => simp [handler, hb, hg, hm, hd] at h
          | none =>
            cases hp : f.putItem with
            | some e => simp [handler, hb, hg, hm, hd, hp] at h
            | none =>
              cases hsp : setProcessed w.tagSet with
              | none =>
                exact ⟨rfl, rfl, rfl, fun ts hts => Option.noConfusion hts⟩
              | some ts =>
                cases hpt : f.putTagging with
                | some e =>
                  simp [handler, hb, hg, hm, hd, hp, hsp, hpt] at h
                | none =>
                  exact ⟨rfl, rfl, rfl, fun ts' hts => rfl⟩

/-- Witness for C3: a marker-fetch fault "boom" propagates unchanged and
the trace holds no queue-delete call. -/
theorem c3_faults_propagate_and_block_acknowledgment_witness :
    (handler { wordToDetect := [], dynamodbTable := [] }
      { body := .object none none, receiptHandle := [],
        eventSourceARN := [], awsRegion := [] }
      { tagSet := [], textDetections := [] }
      { getTagging := some ("boom".toList), detectText := none,
        putItem := none, putTagging := none, deleteMessage := none }).1 =
      .thrown ("boom".toList) ∧
    Eff.deleteMessage [] [] ∉
      (handler { wordToDetect := [], dynamodbTable := [] }
        { body := .object none none, receiptHandle := [],
          eventSourceARN := [], awsRegion := [] }
        { tagSet := [], textDetections := [] }
        { getTagging := some ("boom".toList), detectText := none,
          putItem := none, putTagging := none, deleteMessage := none }).2 := by
  have h := c3_faults_propagate_and_block_acknowledgment.1
    { wordToDetect := [], dynamodbTable := [] }
    { body := .object none none, receiptHandle := [],
      eventSourceARN := [], awsRegion := [] }
    { tagSet := [], textDetections := [] }
    { getTagging := some ("boom".toList), detectText := none,
      putItem := none, putTagging := none, deleteMessage := none }
    none none ("boom".toList) rfl (Or.inl rfl)
  exact ⟨h.1, h.2 [] []⟩

end DetectImageAttributes
